import Mathlib

/-
Verification of the whisper.cpp JNI loader and transcription boundary
(src/nativelib/src/main/jni/whisper/WhisperLib.c).

The C file is a thin boundary layer: every interesting behaviour is a
deterministic function of its arguments and of the outcomes of the external
JNI / asset-manager / engine calls it makes.  We embed it shallowly: each
external call outcome is a field of an explicit oracle record (a "world"),
and each C function becomes a total Lean function from its arguments and the
world to a result record that also tracks the observable effects the spec
talks about (which boundary calls were made, which references were acquired
or released, what was copied).  Machine integers (jint, jlong) are modelled
as Int; null pointers and null JNI references as Option.none; the context
struct allocated with calloc as a record whose fields start zeroed.
-/

namespace WhisperJNI

/-- Mirror of struct input_stream_context in WhisperLib.c.  JavaVM, the
stream GlobalRef, the resolved method id and the buffer GlobalRef are opaque
non-null tokens modelled as Nat; a NULL field is none.  buf_len is a jint
and eof a C int, both modelled as Int. -/
structure input_stream_context where
  jvm : Option Nat
  input_stream : Option Nat
  mid_read : Option Nat
  buffer_gl : Option Nat
  buf_len : Int
  eof : Int
  deriving Repr, DecidableEq

/-- Mirror of get_env_from_jvm: NULL JavaVM yields no env; otherwise the
GetEnv / AttachCurrentThread pair succeeds exactly when the world says the
calling thread can obtain an env (envAvail).  We only track success. -/
def get_env_from_jvm (envAvail : Bool) (jvm : Option Nat) : Bool :=
  match jvm with
  | none => false
  | some _ => envAvail

/-- Outcome of the cross-boundary CallIntMethod on InputStream.read: either
it raised a Java exception (ExceptionCheck true) or it returned a jint. -/
inductive StreamReadOutcome where
  | exception : StreamReadOutcome
  | value : Int → StreamReadOutcome
  deriving Repr, DecidableEq

/-- Oracle for one invocation of is_read: whether the thread can resolve a
JNIEnv, what the InputStream.read call does, the bytes sitting in the shared
Java byte[] transfer buffer after that call, and whether
GetByteArrayElements succeeds (returns a non-NULL pinned pointer). -/
structure JniWorld where
  envAvail : Bool
  streamRead : StreamReadOutcome
  bufferBytes : List Int
  pinOk : Bool
  deriving Repr, DecidableEq

/-- Observable result of one is_read call: the size_t return value, the
bytes memcpy-ed into the engine output buffer, the context after the call,
whether env resolution was attempted, whether the caller read method was
invoked, whether ExceptionClear was performed, and the length argument
passed to the caller read (none when the read was never invoked). -/
structure ReadResult where
  ret : Nat
  output : List Int
  ctx : Option input_stream_context
  envResolved : Bool
  readInvoked : Bool
  exceptionCleared : Bool
  chunkArg : Option Int
  deriving Repr, DecidableEq

/-- Mirror of is_read in WhisperLib.c.  The null checks, the clamp of the
request to buf_len, the exception branch, the non-positive-return branch,
the GetByteArrayElements NULL branch and the memcpy branch follow the C
source line by line. -/
def is_read (w : JniWorld) (ctx : Option input_stream_context) (read_size : Nat) : ReadResult :=
  match ctx with
  | none =>
      { ret := 0, output := [], ctx := none, envResolved := false,
        readInvoked := false, exceptionCleared := false, chunkArg := none }
  | some is =>
      if is.jvm = none ∨ is.input_stream = none ∨ is.buffer_gl = none then
        { ret := 0, output := [], ctx := some is, envResolved := false,
          readInvoked := false, exceptionCleared := false, chunkArg := none }
      else if get_env_from_jvm w.envAvail is.jvm = false then
        { ret := 0, output := [], ctx := some is, envResolved := true,
          readInvoked := false, exceptionCleared := false, chunkArg := none }
      else
        let chunk : Int := if (read_size : Int) > is.buf_len then is.buf_len else (read_size : Int)
        match w.streamRead with
        | .exception =>
            { ret := 0, output := [], ctx := some { is with eof := 1 },
              envResolved := true, readInvoked := true, exceptionCleared := true,
              chunkArg := some chunk }
        | .value n =>
            if n ≤ 0 then
              { ret := 0, output := [], ctx := some { is with eof := 1 },
                envResolved := true, readInvoked := true, exceptionCleared := false,
                chunkArg := some chunk }
            else if w.pinOk = false then
              { ret := 0, output := [], ctx := some { is with eof := 1 },
                envResolved := true, readInvoked := true, exceptionCleared := false,
                chunkArg := some chunk }
            else
              { ret := n.toNat, output := w.bufferBytes.take n.toNat, ctx := some is,
                envResolved := true, readInvoked := true, exceptionCleared := false,
                chunkArg := some chunk }

/-- Mirror of is_eof: a NULL context reports end-of-data, otherwise the eof
flag is read with no boundary crossing. -/
def is_eof (ctx : Option input_stream_context) : Bool :=
  match ctx with
  | none => true
  | some is => is.eof != 0

/-- Heap cell for one calloc-ed input_stream_context together with a ledger
of the effects of close calls on it: cell is some c while the struct is
allocated and none once freed; freeCount counts free() calls;
streamReleases and bufferReleases count DeleteGlobalRef calls on the stream
and buffer references; useAfterFree records that a call dereferenced the
cell after it was freed (undefined behaviour in C). -/
structure CloseState where
  cell : Option input_stream_context
  freeCount : Nat
  streamReleases : Nat
  bufferReleases : Nat
  useAfterFree : Bool
  deriving Repr, DecidableEq

/-- Fresh state for a just-allocated context holding c. -/
def closeStateOf (c : input_stream_context) : CloseState :=
  { cell := some c, freeCount := 0, streamReleases := 0, bufferReleases := 0,
    useAfterFree := false }

/-- Mirror of is_close.  A NULL argument returns at once.  Otherwise the
struct fields are read (undefined behaviour if the cell was already freed),
an env is resolved from the stored JavaVM, each non-NULL reference is
released and nulled out when an env is available, and the struct is freed.
The envAvail flag plays the role of the world in get_env_from_jvm. -/
def is_close (envAvail : Bool) (ptrNull : Bool) (st : CloseState) : CloseState :=
  if ptrNull then st
  else
    match st.cell with
    | none =>
        { st with useAfterFree := true, freeCount := st.freeCount + 1 }
    | some is =>
        if get_env_from_jvm envAvail is.jvm then
          { cell := none, freeCount := st.freeCount + 1,
            streamReleases := st.streamReleases + (if is.input_stream.isSome then 1 else 0),
            bufferReleases := st.bufferReleases + (if is.buffer_gl.isSome then 1 else 0),
            useAfterFree := st.useAfterFree }
        else
          { st with cell := none, freeCount := st.freeCount + 1 }

/-- Oracle for one run of Java_com_negi_nativelib_WhisperLib_initContextFromInputStream:
success of calloc, GetJavaVM, NewGlobalRef on the stream, GetObjectClass,
GetMethodID, NewByteArray and NewGlobalRef on the buffer; whether the env
re-resolution inside the teardown is_close calls succeeds (on the calling
thread GetEnv trivially succeeds, since the thread is executing a JNI entry
point, so this is true in any real run); and the jlong value of the
whisper_init_with_params result, 0 meaning the engine returned NULL. -/
structure StreamInitWorld where
  callocOk : Bool
  getJavaVMOk : Bool
  globalRefStreamOk : Bool
  getClassOk : Bool
  getMethodOk : Bool
  newByteArrayOk : Bool
  globalRefBufferOk : Bool
  closeEnvAvail : Bool
  engineHandle : Int
  deriving Repr, DecidableEq

/-- Observable outcome of one initContextFromInputStream call: the returned
jlong handle, whether the context struct is still allocated at return,
whether the stream and buffer GlobalRefs are still held at return, whether
the engine initializer was invoked, whether is_close was invoked for
teardown, and how many times each GlobalRef was released. -/
structure InitResult where
  handle : Int
  structAllocated : Bool
  streamRefHeld : Bool
  bufferRefHeld : Bool
  engineInitCalled : Bool
  closeInvoked : Bool
  streamReleases : Nat
  bufferReleases : Nat
  deriving Repr, DecidableEq

/-- Failure exit of initContextFromInputStream that goes through is_close on
the context value c, exactly as the C source does after the stream
GlobalRef has been taken. -/
def teardown (envAvail : Bool) (engineCalled : Bool) (c : input_stream_context) : InitResult :=
  let st := is_close envAvail false (closeStateOf c)
  { handle := 0,
    structAllocated := st.cell.isSome,
    streamRefHeld := c.input_stream.isSome && st.streamReleases == 0,
    bufferRefHeld := c.buffer_gl.isSome && st.bufferReleases == 0,
    engineInitCalled := engineCalled,
    closeInvoked := true,
    streamReleases := st.streamReleases,
    bufferReleases := st.bufferReleases }

/-- Early failure exit of initContextFromInputStream before any GlobalRef
exists: either nothing was allocated yet (calloc failed or the stream was
NULL) or only the calloc-ed struct, which the C code frees directly. -/
def earlyFail : InitResult :=
  { handle := 0, structAllocated := false, streamRefHeld := false,
    bufferRefHeld := false, engineInitCalled := false, closeInvoked := false,
    streamReleases := 0, bufferReleases := 0 }

/-- Mirror of Java_com_negi_nativelib_WhisperLib_initContextFromInputStream.
The stream argument is none for a NULL jobject.  The stage-by-stage context
values reproduce the C flow: calloc zeroes every field, then jvm, the
stream GlobalRef, mid_read, buf_len = 64*1024 and the buffer GlobalRef are
filled in that order; each failure exit frees or is_close-es exactly what
the C source does, and on engine failure is_close is called on the fully
built context. -/
def initContextFromInputStream (w : StreamInitWorld) (input_stream : Option Nat) : InitResult :=
  match input_stream with
  | none => earlyFail
  | some s =>
      if w.callocOk = false then earlyFail
      else if w.getJavaVMOk = false then earlyFail
      else if w.globalRefStreamOk = false then earlyFail
      else
        let cA : input_stream_context :=
          { jvm := some 1, input_stream := some s, mid_read := none,
            buffer_gl := none, buf_len := 0, eof := 0 }
        if (w.getClassOk && w.getMethodOk) = false then
          teardown w.closeEnvAvail false cA
        else
          let cB : input_stream_context := { cA with mid_read := some 1, buf_len := 64 * 1024 }
          if w.newByteArrayOk = false then
            teardown w.closeEnvAvail false cB
          else if w.globalRefBufferOk = false then
            teardown w.closeEnvAvail false cB
          else
            let cC : input_stream_context := { cB with buffer_gl := some 2 }
            if w.engineHandle = 0 then
              teardown w.closeEnvAvail true cC
            else
              { handle := w.engineHandle, structAllocated := true,
                streamRefHeld := true, bufferRefHeld := true,
                engineInitCalled := true, closeInvoked := false,
                streamReleases := 0, bufferReleases := 0 }

/-- Oracle for the asset loader path: success of GetStringUTFChars, of
AAssetManager_fromJava, of AAssetManager_open, and the jlong value of the
whisper_init_with_params result (0 = NULL). -/
structure AssetWorld where
  utfOk : Bool
  mgrOk : Bool
  openOk : Bool
  engineHandle : Int
  deriving Repr, DecidableEq

/-- Observable outcome of an asset or file load: the returned handle,
whether the engine initializer was invoked, and whether AAssetManager_open
was invoked. -/
structure LoadOutcome where
  handle : Int
  engineInitCalled : Bool
  assetOpenCalled : Bool
  deriving Repr, DecidableEq

/-- Mirror of the static helper whisper_init_from_asset: NULL manager or
NULL path return NULL before any asset call; then AAssetManager_fromJava,
AAssetManager_open in streaming mode, and only on an open asset the engine
initializer. -/
def whisper_init_from_asset (w : AssetWorld) (assetManager : Option Nat)
    (asset_path : Option String) : LoadOutcome :=
  match assetManager, asset_path with
  | none, _ => { handle := 0, engineInitCalled := false, assetOpenCalled := false }
  | _, none => { handle := 0, engineInitCalled := false, assetOpenCalled := false }
  | some _, some _ =>
      if w.mgrOk = false then
        { handle := 0, engineInitCalled := false, assetOpenCalled := false }
      else if w.openOk = false then
        { handle := 0, engineInitCalled := false, assetOpenCalled := true }
      else
        { handle := w.engineHandle, engineInitCalled := true, assetOpenCalled := true }

/-- Mirror of Java_com_negi_nativelib_WhisperLib_initContextFromAsset: NULL
entry-name jstring returns 0; a failed GetStringUTFChars returns 0; then
the helper runs on the UTF chars of the entry name, which are released
afterwards.  Note the C code never tests the entry name for emptiness. -/
def initContextFromAsset (w : AssetWorld) (assetManager : Option Nat)
    (asset_path_str : Option String) : LoadOutcome :=
  match asset_path_str with
  | none => { handle := 0, engineInitCalled := false, assetOpenCalled := false }
  | some s =>
      if w.utfOk = false then
        { handle := 0, engineInitCalled := false, assetOpenCalled := false }
      else
        whisper_init_from_asset w assetManager (some s)

/-- Oracle for the file-path loader: success of GetStringUTFChars and the
jlong value of the whisper_init_from_file_with_params result (0 = NULL). -/
structure FileWorld where
  utfOk : Bool
  engineHandle : Int
  deriving Repr, DecidableEq

/-- Observable outcome of a file-path load. -/
structure FileOutcome where
  handle : Int
  engineInitCalled : Bool
  deriving Repr, DecidableEq

/-- Mirror of Java_com_negi_nativelib_WhisperLib_initContext: NULL path
jstring returns 0; a failed GetStringUTFChars returns 0; otherwise the
engine file initializer is invoked on the path characters (whatever they
are, including the empty string) and its result is returned. -/
def initContext (w : FileWorld) (model_path_str : Option String) : FileOutcome :=
  match model_path_str with
  | none => { handle := 0, engineInitCalled := false }
  | some _ =>
      if w.utfOk = false then { handle := 0, engineInitCalled := false }
      else { handle := w.engineHandle, engineInitCalled := true }

/-- The fields of struct whisper_full_params that
Java_com_negi_nativelib_WhisperLib_fullTranscribe touches, plus language
and detect_language.  The language field is the const char pointer handed
to the engine: none when left at the engine default, some s when set to
the UTF chars of the caller string. -/
structure whisper_full_params where
  n_threads : Int
  translate : Bool
  no_context : Bool
  print_realtime : Bool
  print_progress : Bool
  print_timestamps : Bool
  print_special : Bool
  language : Option String
  detect_language : Bool
  deriving Repr, DecidableEq

/-- Parameter construction inside fullTranscribe, starting from the engine
default parameter block d = whisper_full_default_params(WHISPER_SAMPLING_GREEDY):
thread clamp, translate flag, the fixed flags, then the language branch.
lang is the UTF chars of the caller language string (none when the caller
passed NULL or GetStringUTFChars failed). -/
def build_full_params (d : whisper_full_params) (num_threads : Int) (translate : Bool)
    (lang : Option String) : whisper_full_params :=
  let p : whisper_full_params :=
    { d with
      n_threads := if num_threads > 0 then num_threads else 1,
      translate := translate,
      no_context := true,
      print_realtime := false,
      print_progress := false,
      print_timestamps := false,
      print_special := false }
  match lang with
  | some l =>
      if l != "" && l != "auto" then
        { p with language := some l, detect_language := false }
      else
        { p with detect_language := true }
  | none => { p with detect_language := true }

/-- JNI release of a pinned float array copy: with the JNI_ABORT mode the
native copy is discarded and the Java array keeps its old contents; with
mode 0 the native copy would be written back. -/
def releaseFloatArrayElements (modeAbort : Bool) (javaArr : List Int)
    (nativeCopy : List Int) : List Int :=
  if modeAbort then javaArr else nativeCopy

/-- Oracle for one fullTranscribe call: success of GetFloatArrayElements,
success of GetStringUTFChars on the language string, the engine default
parameter block, the whisper_full status code, and the contents of the
pinned native sample copy after whisper_full ran (the engine could in
principle scribble on it; JNI_ABORT makes that unobservable). -/
structure TranscribeWorld where
  pinSamplesOk : Bool
  utfOk : Bool
  defaults : whisper_full_params
  engineStatus : Int
  pcmAfterEngine : List Int
  deriving Repr, DecidableEq

/-- Observable outcome of one fullTranscribe call: whether the invalid-args
warning was logged, whether whisper_full was invoked and with which
parameter block, the Java sample array contents at return, whether a
language UTF reference was acquired and whether it was released, and the
reset-timings / print-timings diagnostics. -/
structure TranscribeResult where
  warned : Bool
  engineCalled : Bool
  paramsUsed : Option whisper_full_params
  samplesAfter : Option (List Int)
  langAcquired : Bool
  langReleased : Bool
  timingsReset : Bool
  timingsPrinted : Bool
  deriving Repr, DecidableEq

/-- Mirror of Java_com_negi_nativelib_WhisperLib_fullTranscribe.  A zero
handle or NULL sample array logs a warning and returns before touching
anything.  Then the samples are pinned (a NULL pin returns silently), the
language chars are fetched, the parameter block is built, timings are
reset, whisper_full runs, timings are printed on status 0, the language
chars are released when they were acquired, and the samples are released
with JNI_ABORT. -/
def fullTranscribe (w : TranscribeWorld) (context_ptr : Int) (lang_str : Option String)
    (num_threads : Int) (translate : Bool) (audio_data : Option (List Int)) : TranscribeResult :=
  if context_ptr = 0 ∨ audio_data = none then
    { warned := true, engineCalled := false, paramsUsed := none,
      samplesAfter := audio_data, langAcquired := false, langReleased := false,
      timingsReset := false, timingsPrinted := false }
  else
    match audio_data with
    | none =>
        { warned := true, engineCalled := false, paramsUsed := none,
          samplesAfter := none, langAcquired := false, langReleased := false,
          timingsReset := false, timingsPrinted := false }
    | some samples =>
        if w.pinSamplesOk = false then
          { warned := false, engineCalled := false, paramsUsed := none,
            samplesAfter := some samples, langAcquired := false, langReleased := false,
            timingsReset := false, timingsPrinted := false }
        else
          let lang : Option String :=
            match lang_str with
            | none => none
            | some l => if w.utfOk then some l else none
          let p := build_full_params w.defaults num_threads translate lang
          { warned := false, engineCalled := true, paramsUsed := some p,
            samplesAfter := some (releaseFloatArrayElements true samples w.pcmAfterEngine),
            langAcquired := lang.isSome, langReleased := lang.isSome,
            timingsReset := true, timingsPrinted := w.engineStatus == 0 }

/-- Oracle for the segment accessors: the live whisper_full_n_segments
count, the per-index whisper_full_get_segment_text result (none = NULL
const char pointer), and the per-index t0 / t1 native timestamps. -/
structure SegmentWorld where
  n_segments : Int
  seg_text : Int → Option String
  t0 : Int → Int
  t1 : Int → Int

/-- Mirror of Java_com_negi_nativelib_WhisperLib_getTextSegmentCount. -/
def getTextSegmentCount (w : SegmentWorld) (context_ptr : Int) : Int :=
  if context_ptr = 0 then 0 else w.n_segments

/-- Mirror of Java_com_negi_nativelib_WhisperLib_getTextSegment: a zero
handle yields the empty string, and a NULL engine text pointer is replaced
by the empty string before NewStringUTF. -/
def getTextSegment (w : SegmentWorld) (context_ptr : Int) (index : Int) : String :=
  if context_ptr = 0 then "" else (w.seg_text index).getD ""

/-- Mirror of Java_com_negi_nativelib_WhisperLib_getTextSegmentT0. -/
def getTextSegmentT0 (w : SegmentWorld) (context_ptr : Int) (index : Int) : Int :=
  if context_ptr = 0 then 0 else w.t0 index

/-- Mirror of Java_com_negi_nativelib_WhisperLib_getTextSegmentT1. -/
def getTextSegmentT1 (w : SegmentWorld) (context_ptr : Int) (index : Int) : Int :=
  if context_ptr = 0 then 0 else w.t1 index

/-- Concrete fully-populated loader context used by concrete evaluations:
the value initContextFromInputStream builds on its success path. -/
def ctx0 : input_stream_context :=
  { jvm := some 1, input_stream := some 5, mid_read := some 1,
    buffer_gl := some 2, buf_len := 64 * 1024, eof := 0 }

/-- Concrete is_read world where the caller read reports 3 bytes and
everything else succeeds. -/
def w3 : JniWorld :=
  { envAvail := true, streamRead := .value 3, bufferBytes := [10, 11, 12, 13], pinOk := true }

/-- Concrete is_read world where the caller read reports 1 byte but
GetByteArrayElements returns NULL. -/
def wpin : JniWorld :=
  { envAvail := true, streamRead := .value 1, bufferBytes := [9], pinOk := false }

/-- Concrete engine default parameter block (arbitrary values, provided by
the opaque engine in a real run). -/
def defaults0 : whisper_full_params :=
  { n_threads := 4, translate := false, no_context := false, print_realtime := true,
    print_progress := true, print_timestamps := true, print_special := true,
    language := none, detect_language := false }

/-- Concrete transcribe world where every JNI step succeeds and the engine
reports status 0. -/
def cw : TranscribeWorld :=
  { pinSamplesOk := true, utfOk := true, defaults := defaults0, engineStatus := 0,
    pcmAfterEngine := [99] }

/-- Concrete stream-init world where every step succeeds but the engine
initializer returns NULL. -/
def w4 : StreamInitWorld :=
  { callocOk := true, getJavaVMOk := true, globalRefStreamOk := true, getClassOk := true,
    getMethodOk := true, newByteArrayOk := true, globalRefBufferOk := true,
    closeEnvAvail := true, engineHandle := 0 }

/-- Concrete segment world whose engine yields no text for any index. -/
def sw0 : SegmentWorld :=
  { n_segments := 2, seg_text := fun _ => none, t0 := fun i => i, t1 := fun i => i + 10 }

/-- Concrete partially-initialized context: only the JavaVM field was set
before initialization failed; every reference field is still NULL. -/
def pctx : input_stream_context :=
  { jvm := some 1, input_stream := none, mid_read := none, buffer_gl := none,
    buf_len := 0, eof := 0 }

/-- C1 counterexample: the file-path loader called with a non-null but
empty path string does invoke the engine initializer
(whisper_init_from_file_with_params runs on the empty path; the C code
never tests the path for emptiness), contradicting the claim that an empty
path yields a zero handle with no engine initialization call.  The handle
is still zero only because the engine itself fails on that path. -/
theorem C1_counterexample :
    (initContext { utfOk := true, engineHandle := 0 } (some "")).handle = 0 ∧
    (initContext { utfOk := true, engineHandle := 0 } (some "")).engineInitCalled = true := by
  decide

/-- C1 (amended): a null required input (null stream, null entry name, null
container manager, null path) yields a zero handle with no engine
initialization call, for all three loaders.  Empty strings, however, are
not checked by this layer: an empty entry name is passed to the container
open, which is attempted, and the engine is invoked exactly when that open
succeeds; an empty path is always passed to the engine file initializer,
whose result becomes the handle. -/
theorem C1_amended (wf : FileWorld) (wa : AssetWorld) (ws : StreamInitWorld)
    (mgr : Nat) (name : String) (h : Int) :
    initContext wf none = { handle := 0, engineInitCalled := false } ∧
    initContextFromAsset wa none none =
      { handle := 0, engineInitCalled := false, assetOpenCalled := false } ∧
    initContextFromAsset wa none (some name) =
      { handle := 0, engineInitCalled := false, assetOpenCalled := false } ∧
    initContextFromInputStream ws none = earlyFail ∧
    (initContextFromInputStream ws none).handle = 0 ∧
    (initContextFromInputStream ws none).engineInitCalled = false ∧
    initContext { utfOk := true, engineHandle := h } (some "") =
      { handle := h, engineInitCalled := true } ∧
    initContextFromAsset { utfOk := true, mgrOk := true, openOk := false, engineHandle := h }
        (some mgr) (some "") =
      { handle := 0, engineInitCalled := false, assetOpenCalled := true } ∧
    initContextFromAsset { utfOk := true, mgrOk := true, openOk := true, engineHandle := h }
        (some mgr) (some "") =
      { handle := h, engineInitCalled := true, assetOpenCalled := true } := by
  refine ⟨rfl, rfl, ?_, rfl, rfl, rfl, rfl, rfl, rfl⟩
  by_cases hu : wa.utfOk = false <;>
    simp [initContextFromAsset, whisper_init_from_asset, hu]

/-- C2 counterexample: calling is_close twice in a row on the same fully
populated context frees the calloc-ed struct twice and dereferences it
after it was freed, which is undefined behaviour in C (may crash).  The
first call alone is clean. -/
theorem C2_counterexample :
    (is_close true false (is_close true false (closeStateOf ctx0))).useAfterFree = true ∧
    (is_close true false (is_close true false (closeStateOf ctx0))).freeCount = 2 ∧
    (is_close true false (closeStateOf ctx0)).useAfterFree = false := by
  decide

/-- C2 (amended): a single close() on any loader context, including one
whose fields were never initialized, is safe: it dereferences no freed
memory, releases the stream and buffer references at most once each (and
never for a field that is still NULL), and frees the struct at most once.
Because the reference fields are nulled before the struct is freed, even a
second close() releases no cross-boundary reference twice; but the second
call double-frees the context struct itself, so close() is not idempotent
at the allocation level. -/
theorem C2_amended (c : input_stream_context) (envAvail ptrNull : Bool) :
    ((is_close envAvail ptrNull (closeStateOf c)).useAfterFree = false) ∧
    ((is_close envAvail ptrNull (closeStateOf c)).streamReleases ≤ 1) ∧
    ((is_close envAvail ptrNull (closeStateOf c)).bufferReleases ≤ 1) ∧
    ((is_close envAvail ptrNull (closeStateOf c)).freeCount ≤ 1) ∧
    (c.input_stream = none → (is_close envAvail ptrNull (closeStateOf c)).streamReleases = 0) ∧
    (c.buffer_gl = none → (is_close envAvail ptrNull (closeStateOf c)).bufferReleases = 0) ∧
    ((is_close envAvail ptrNull (is_close envAvail ptrNull (closeStateOf c))).streamReleases ≤ 1) ∧
    ((is_close envAvail ptrNull (is_close envAvail ptrNull (closeStateOf c))).bufferReleases ≤ 1) := by
  cases ptrNull with
  | true => simp [is_close, closeStateOf]
  | false =>
      by_cases he : get_env_from_jvm envAvail c.jvm = true <;>
        by_cases hs : c.input_stream = none <;>
          by_cases hb : c.buffer_gl = none <;>
            simp [is_close, closeStateOf, he, hs, hb, Option.isSome_iff_exists] <;>
              split_ifs <;> simp

/-- C2 amended witness: a close on a context where only the JavaVM field
was ever set releases nothing and touches no freed memory. -/
theorem C2_amended_witness :
    (is_close true false (closeStateOf pctx)).useAfterFree = false ∧
    (is_close true false (closeStateOf pctx)).streamReleases = 0 ∧
    (is_close true false (closeStateOf pctx)).bufferReleases = 0 := by
  have h := C2_amended pctx true false
  exact ⟨h.1, h.2.2.2.2.1 rfl, h.2.2.2.2.2.1 rfl⟩

/-- C3 counterexample: with a fully valid context, an available env and a
caller read that reports 1 byte without raising any exception, the claim
requires is_read to copy and return exactly 1 byte; but when
GetByteArrayElements returns NULL (a branch the claim does not mention),
is_read marks the source exhausted and returns 0. -/
theorem C3_counterexample :
    wpin.streamRead = .value 1 ∧
    (is_read wpin (some ctx0) 10).readInvoked = true ∧
    (is_read wpin (some ctx0) 10).exceptionCleared = false ∧
    (is_read wpin (some ctx0) 10).ret = 0 := by
  decide

/-- C3 (amended): for a fully populated context with the 64 KiB buffer and
a resolvable env, is_read clamps the requested length to the transfer
buffer capacity; a Java exception from the caller read is cleared, the
source is marked exhausted and zero is returned; a zero-or-negative report
marks exhausted and returns zero; a positive report with a failed buffer
pin (GetByteArrayElements NULL) also marks exhausted and returns zero; and
otherwise exactly the reported byte count is copied out of the shared
buffer and returned, with the context unchanged. -/
theorem C3_amended (w : JniWorld) (c : input_stream_context) (read_size : Nat)
    (jv st bf : Nat) (hjvm : c.jvm = some jv) (hstr : c.input_stream = some st)
    (hbuf : c.buffer_gl = some bf) (henv : w.envAvail = true)
    (hlen : c.buf_len = 64 * 1024) :
    ((is_read w (some c) read_size).chunkArg = some (min (read_size : Int) (64 * 1024))) ∧
    (w.streamRead = .exception →
      (is_read w (some c) read_size).ret = 0 ∧
      (is_read w (some c) read_size).exceptionCleared = true ∧
      (is_read w (some c) read_size).ctx = some { c with eof := 1 }) ∧
    (∀ n, w.streamRead = .value n → n ≤ 0 →
      (is_read w (some c) read_size).ret = 0 ∧
      (is_read w (some c) read_size).ctx = some { c with eof := 1 }) ∧
    (∀ n, w.streamRead = .value n → 0 < n → w.pinOk = false →
      (is_read w (some c) read_size).ret = 0 ∧
      (is_read w (some c) read_size).ctx = some { c with eof := 1 }) ∧
    (∀ n, w.streamRead = .value n → 0 < n → w.pinOk = true →
      (is_read w (some c) read_size).ret = n.toNat ∧
      (is_read w (some c) read_size).output = w.bufferBytes.take n.toNat ∧
      (is_read w (some c) read_size).ctx = some c) := by
  have hmin : (if (read_size : Int) > c.buf_len then c.buf_len else (read_size : Int)) =
      min (read_size : Int) (64 * 1024) := by
    rw [hlen, min_def]
    split_ifs <;> omega
  cases hsr : w.streamRead with
  | exception =>
      refine ⟨?_, ?_, ?_, ?_, ?_⟩ <;>
        simp [is_read, hjvm, hstr, hbuf, henv, get_env_from_jvm, hsr, hmin]
  | value n =>
      rcases le_or_lt n 0 with hn | hn
      · refine ⟨?_, ?_, ?_, ?_, ?_⟩ <;>
          simp [is_read, hjvm, hstr, hbuf, henv, get_env_from_jvm, hsr, hmin, hn]
      · by_cases hp : w.pinOk = true
        · refine ⟨?_, ?_, ?_, ?_, ?_⟩ <;>
            simp [is_read, hjvm, hstr, hbuf, henv, get_env_from_jvm, hsr, hmin, hp,
                  not_le.mpr hn] <;>
            omega
        · refine ⟨?_, ?_, ?_, ?_, ?_⟩ <;>
            simp [is_read, hjvm, hstr, hbuf, henv, get_env_from_jvm, hsr, hmin, hp,
                  not_le.mpr hn]

/-- C3 amended witness: requesting 10 bytes from a context whose caller
read reports 3 bytes copies exactly the first 3 bytes of the shared buffer
and returns 3, with the request clamped to 10 (below the 64 KiB cap). -/
theorem C3_witness :
    (is_read w3 (some ctx0) 10).chunkArg = some 10 ∧
    (is_read w3 (some ctx0) 10).ret = 3 ∧
    (is_read w3 (some ctx0) 10).output = [10, 11, 12] ∧
    (is_read w3 (some ctx0) 10).ctx = some ctx0 := by
  have h := C3_amended w3 ctx0 10 1 5 2 rfl rfl rfl rfl rfl
  have hc := h.1
  have hv := h.2.2.2.2 3 rfl (by decide) rfl
  refine ⟨?_, ?_, ?_, ?_⟩
  · rw [hc]; norm_num
  · exact hv.1
  · exact hv.2.1
  · exact hv.2.2

/-- C4: in initContextFromInputStream, a failure at any initialization
step (calloc, GetJavaVM, the stream GlobalRef, read-method resolution, the
transfer-buffer allocation or its GlobalRef, or the engine initializer)
returns a zero handle with the context struct freed and neither GlobalRef
still held, so nothing is leaked; and when the engine initializer fails
after a fully successful adapter setup, the adapter is_close is invoked.
The closeEnvAvail hypothesis records that GetEnv succeeds inside the
teardown is_close calls, which is guaranteed on the calling thread since it
is executing a JNI entry point and is therefore attached. -/
theorem C4_teardown (w : StreamInitWorld) (s : Nat) (henv : w.closeEnvAvail = true) :
    ((w.callocOk = false ∨ w.getJavaVMOk = false ∨ w.globalRefStreamOk = false ∨
      w.getClassOk = false ∨ w.getMethodOk = false ∨ w.newByteArrayOk = false ∨
      w.globalRefBufferOk = false ∨ w.engineHandle = 0) →
      (initContextFromInputStream w (some s)).handle = 0 ∧
      (initContextFromInputStream w (some s)).structAllocated = false ∧
      (initContextFromInputStream w (some s)).streamRefHeld = false ∧
      (initContextFromInputStream w (some s)).bufferRefHeld = false) ∧
    (w.callocOk = true → w.getJavaVMOk = true → w.globalRefStreamOk = true →
     w.getClassOk = true → w.getMethodOk = true → w.newByteArrayOk = true →
     w.globalRefBufferOk = true → w.engineHandle = 0 →
      (initContextFromInputStream w (some s)).engineInitCalled = true ∧
      (initContextFromInputStream w (some s)).closeInvoked = true) := by
  rcases w with ⟨co, gj, gr, gc, gm, nb, gb, ce, eh⟩
  have hce : ce = true := henv
  subst hce
  by_cases he : eh = 0 <;>
    cases co <;> cases gj <;> cases gr <;> cases gc <;> cases gm <;> cases nb <;> cases gb <;>
      simp [initContextFromInputStream, teardown, earlyFail, is_close, closeStateOf,
            get_env_from_jvm, he]

/-- C4 witness: with every adapter step succeeding and the engine
initializer returning NULL, the call returns a zero handle, invokes the
adapter is_close, and leaves no struct or reference behind. -/
theorem C4_witness :
    (initContextFromInputStream w4 (some 7)).handle = 0 ∧
    (initContextFromInputStream w4 (some 7)).structAllocated = false ∧
    (initContextFromInputStream w4 (some 7)).streamRefHeld = false ∧
    (initContextFromInputStream w4 (some 7)).bufferRefHeld = false ∧
    (initContextFromInputStream w4 (some 7)).engineInitCalled = true ∧
    (initContextFromInputStream w4 (some 7)).closeInvoked = true := by
  have h := C4_teardown w4 7 rfl
  have h1 := h.1 (Or.inr (Or.inr (Or.inr (Or.inr (Or.inr (Or.inr (Or.inr rfl)))))))
  have h2 := h.2 rfl rfl rfl rfl rfl rfl rfl rfl
  exact ⟨h1.1, h1.2.1, h1.2.2.1, h1.2.2.2, h2.1, h2.2⟩

/-- C5: in fullTranscribe, an absent language argument, the empty string,
or the literal sentinel "auto" enables auto-detect in the engine
parameters; any other non-empty language string disables auto-detect and
is passed through verbatim as the language parameter.  The hypotheses pin
the call actually reaching the engine: non-zero handle, successful sample
pin and successful UTF conversion of the language string. -/
theorem C5_language (w : TranscribeWorld) (h : Int) (num_threads : Int) (translate : Bool)
    (samples : List Int) (l : String)
    (hh : h ≠ 0) (hpin : w.pinSamplesOk = true) (hutf : w.utfOk = true) :
    ((fullTranscribe w h none num_threads translate (some samples)).paramsUsed.map
        whisper_full_params.detect_language = some true) ∧
    ((fullTranscribe w h (some "") num_threads translate (some samples)).paramsUsed.map
        whisper_full_params.detect_language = some true) ∧
    ((fullTranscribe w h (some "auto") num_threads translate (some samples)).paramsUsed.map
        whisper_full_params.detect_language = some true) ∧
    (l ≠ "" → l ≠ "auto" →
      (fullTranscribe w h (some l) num_threads translate (some samples)).paramsUsed.map
        whisper_full_params.detect_language = some false ∧
      (fullTranscribe w h (some l) num_threads translate (some samples)).paramsUsed.map
        whisper_full_params.language = some (some l)) := by
  refine ⟨?_, ?_, ?_, ?_⟩
  · simp [fullTranscribe, hh, hpin, hutf, build_full_params]
  · simp [fullTranscribe, hh, hpin, hutf, build_full_params]
  · simp [fullTranscribe, hh, hpin, hutf, build_full_params]
  · intro hl1 hl2
    constructor <;>
      simp [fullTranscribe, hh, hpin, hutf, build_full_params, hl1, hl2]

/-- C5 witness: the language "sw" is passed verbatim with auto-detect
disabled, while "auto" enables auto-detect. -/
theorem C5_witness :
    ((fullTranscribe cw 1 (some "sw") 4 false (some [0])).paramsUsed.map
        whisper_full_params.detect_language = some false) ∧
    ((fullTranscribe cw 1 (some "sw") 4 false (some [0])).paramsUsed.map
        whisper_full_params.language = some (some "sw")) ∧
    ((fullTranscribe cw 1 (some "auto") 4 false (some [0])).paramsUsed.map
        whisper_full_params.detect_language = some true) := by
  have h := C5_language cw 1 4 false [0] "sw" (by decide) rfl rfl
  exact ⟨(h.2.2.2 (by decide) (by decide)).1, (h.2.2.2 (by decide) (by decide)).2, h.2.2.1⟩

/-- C6: a thread count below 1 is coerced to 1 in the engine parameters,
and a fullTranscribe call with thread count 0 is indistinguishable from
the same call with thread count 1: same warning, same engine invocation,
same parameter block, same effects. -/
theorem C6_threads (w : TranscribeWorld) (h : Int) (lang : Option String) (translate : Bool)
    (audio : Option (List Int)) (d : whisper_full_params) (nt : Int) (lg : Option String) :
    fullTranscribe w h lang 0 translate audio = fullTranscribe w h lang 1 translate audio ∧
    (nt < 1 → (build_full_params d nt translate lg).n_threads = 1) := by
  constructor
  · have key : ∀ (dd : whisper_full_params) (tr : Bool) (lgg : Option String),
        build_full_params dd 0 tr lgg = build_full_params dd 1 tr lgg := by
      intro dd tr lgg
      cases lgg <;> norm_num [build_full_params]
    simp only [fullTranscribe, key]
  · intro hnt
    have hcoerce : (if nt > 0 then nt else 1) = 1 := by
      rw [if_neg (by omega)]
    cases lg with
    | none => simp [build_full_params, hcoerce]
    | some l =>
        by_cases hl : (l != "" && l != "auto") = true <;>
          simp [build_full_params, hcoerce, hl]

/-- C6 witness: thread count 0 gives the same call as thread count 1, and
the constructed parameter block for thread count 0 carries n_threads 1. -/
theorem C6_witness :
    fullTranscribe cw 1 (some "en") 0 false (some [0]) =
      fullTranscribe cw 1 (some "en") 1 false (some [0]) ∧
    (build_full_params defaults0 0 false none).n_threads = 1 := by
  have h := C6_threads cw 1 (some "en") false (some [0]) defaults0 0 none
  exact ⟨h.1, h.2 (by decide)⟩

/-- C7: fullTranscribe with a zero handle or a NULL sample array is a
no-op: it logs the invalid-args warning, invokes no engine call, builds no
parameters, acquires and releases no language reference, leaves the sample
array exactly as passed, and returns normally (the function is total, so
the process never aborts). -/
theorem C7_null_noop (w : TranscribeWorld) (h : Int) (lang : Option String)
    (nt : Int) (translate : Bool) (audio : Option (List Int))
    (hnull : h = 0 ∨ audio = none) :
    fullTranscribe w h lang nt translate audio =
      { warned := true, engineCalled := false, paramsUsed := none, samplesAfter := audio,
        langAcquired := false, langReleased := false, timingsReset := false,
        timingsPrinted := false } := by
  unfold fullTranscribe
  rw [if_pos hnull]

/-- C7 witness: a zero handle with a present sample buffer is a warned
no-op. -/
theorem C7_witness :
    fullTranscribe cw 0 (some "en") 4 false (some [1, 2]) =
      { warned := true, engineCalled := false, paramsUsed := none,
        samplesAfter := some [1, 2], langAcquired := false, langReleased := false,
        timingsReset := false, timingsPrinted := false } := by
  exact C7_null_noop cw 0 (some "en") 4 false (some [1, 2]) (Or.inl rfl)

/-- C8: on every exit path of fullTranscribe, the Java sample array is
returned exactly as it was passed (the float elements are released with
JNI_ABORT, discarding the native copy even if the engine wrote to it), and
a language UTF reference is released exactly when one was acquired. -/
theorem C8_frame (w : TranscribeWorld) (h : Int) (lang : Option String)
    (nt : Int) (translate : Bool) (audio : Option (List Int)) :
    (fullTranscribe w h lang nt translate audio).samplesAfter = audio ∧
    (fullTranscribe w h lang nt translate audio).langReleased =
      (fullTranscribe w h lang nt translate audio).langAcquired := by
  rcases audio with _ | samples
  · simp [fullTranscribe]
  · by_cases hz : h = 0
    · simp [fullTranscribe, hz]
    · by_cases hp : w.pinSamplesOk = true <;>
        simp [fullTranscribe, hz, hp, releaseFloatArrayElements]

/-- C9: every segment accessor on a zero handle returns its neutral value
(zero count, zero timestamps, empty text), and the text accessor returns
the empty string, never a null reference, whenever the engine yields no
text for the index. -/
theorem C9_segments (w : SegmentWorld) (idx : Int) :
    getTextSegmentCount w 0 = 0 ∧
    getTextSegmentT0 w 0 idx = 0 ∧
    getTextSegmentT1 w 0 idx = 0 ∧
    getTextSegment w 0 idx = "" ∧
    (∀ h, w.seg_text idx = none → getTextSegment w h idx = "") := by
  refine ⟨rfl, rfl, rfl, rfl, ?_⟩
  intro h hn
  by_cases hz : h = 0 <;> simp [getTextSegment, hz, hn]

/-- C9 witness: on a world whose engine yields no text, the zero-handle
accessors return zeros and empty text, and a live handle still gets the
empty string instead of a null reference. -/
theorem C9_witness :
    getTextSegmentCount sw0 0 = 0 ∧
    getTextSegmentT0 sw0 0 3 = 0 ∧
    getTextSegmentT1 sw0 0 3 = 0 ∧
    getTextSegment sw0 0 3 = "" ∧
    getTextSegment sw0 7 3 = "" := by
  have h := C9_segments sw0 3
  exact ⟨h.1, h.2.1, h.2.2.1, h.2.2.2.1, h.2.2.2.2 7 rfl⟩

/-- C10: the loader callbacks are total against NULL or partially populated
contexts: is_read on a NULL context, or on a context whose JavaVM, stream
reference or buffer reference is NULL, returns zero without attempting env
resolution and without invoking the caller read; and is_eof on a NULL
context reports exhausted. -/
theorem C10_callbacks_total (w : JniWorld) (read_size : Nat) (c : input_stream_context)
    (hc : c.jvm = none ∨ c.input_stream = none ∨ c.buffer_gl = none) :
    (is_read w none read_size).ret = 0 ∧
    (is_read w none read_size).readInvoked = false ∧
    (is_read w none read_size).envResolved = false ∧
    (is_read w (some c) read_size).ret = 0 ∧
    (is_read w (some c) read_size).readInvoked = false ∧
    (is_read w (some c) read_size).envResolved = false ∧
    is_eof none = true := by
  have hred : is_read w (some c) read_size =
      { ret := 0, output := [], ctx := some c, envResolved := false,
        readInvoked := false, exceptionCleared := false, chunkArg := none } := by
    simp only [is_read]
    rw [if_pos hc]
  rw [hred]
  exact ⟨rfl, rfl, rfl, rfl, rfl, rfl, rfl⟩

/-- C10 witness: a context holding only a JavaVM (stream and buffer still
NULL) reads zero bytes without any boundary call, and the NULL context
reports end-of-data. -/
theorem C10_witness :
    (is_read w3 none 10).ret = 0 ∧
    (is_read w3 (some pctx) 10).ret = 0 ∧
    (is_read w3 (some pctx) 10).readInvoked = false ∧
    is_eof none = true := by
  have h := C10_callbacks_total w3 10 pctx (Or.inr (Or.inl rfl))
  exact ⟨h.1, h.2.2.2.1, h.2.2.2.2.1, h.2.2.2.2.2.2⟩

end WhisperJNI
